import Mathlib

/-!
# Verification of `nemo_chem/data/augment.py` (MegaMolBART batch preparation)

A shallow embedding of the `MoleculeEnumeration` class from
`src/nemo_chem/data/augment.py`, together with proofs about the claims of the
specification.  Python lists become Lean `List`s, token ids become `Int`
(torch int64 values stay well inside that range here), sequences of random
draws become explicit input streams, and Python exceptions become
`Except PyError`.  External collaborators (the tokenizer, the RDKit chemistry
backend) are modelled as records of functions, exactly as wide as the source
uses them.
-/

set_option linter.unusedVariables false

namespace MolEnum

/-- Python runtime errors that the modelled code can raise. -/
inductive PyError where
  /-- `NameError: name '...' is not defined` — referencing an unbound global. -/
  | nameError (name : String)
  /-- `IndexError` from indexing an empty list. -/
  | indexError
  /-- `ValueError(msg)`. -/
  | valueError (msg : String)
  /-- A `DeprecationWarning` escalated to an error by `warnings.simplefilter('error', ...)`. -/
  | deprecationEscalated
  /-- `RuntimeError` (RDKit serialization failure propagating uncaught). -/
  | runtimeError
  /-- A failed `assert` statement. -/
  | assertionError
  /-- Any error caused by using the `None` returned by a failed parse as a mol object. -/
  | noneTypeError
  /-- `AttributeError: ... object has no attribute '...'` — reading an
  instance attribute that was never assigned. -/
  | attributeError (name : String)
  deriving DecidableEq, Repr

/-- The names bound at module level by the import statements of
`augment.py` (lines 16–25): `torch`, `logging`, `Chem`, `math`,
`SMILESAugmenter`, `List`, `np`, `TokenizerSpec` (`math` is imported twice). -/
def moduleBoundNames : List String :=
  ["torch", "logging", "Chem", "math", "SMILESAugmenter", "List", "np", "TokenizerSpec"]

/-- Whether the global name `random` is bound in the module (it is not:
the module never imports `random`). -/
def randomImported : Bool := moduleBoundNames.contains "random"

/-- Whether the global name `warnings` is bound in the module (it is not). -/
def warningsImported : Bool := moduleBoundNames.contains "warnings"

/-- Whether the global name `re` is bound in the module (it is not). -/
def reImported : Bool := moduleBoundNames.contains "re"

/-- The instance attributes `MoleculeEnumeration.__init__` assigns to
`self` (lines 35–42); the extra `**kwargs` are discarded, and no other
method assigns attributes. -/
def instanceAttributes : List String :=
  ["tokenizer", "seq_length", "encoder_augment", "encoder_mask",
   "decoder_augment", "decoder_mask", "canonicalize_input",
   "pad_size_divisible_by_8"]

/-- Whether `self.mask_prob` is ever set on an instance (it is not:
`__init__` never assigns it, so reading it raises `AttributeError`). -/
def maskProbSet : Bool := instanceAttributes.contains "mask_prob"

/-! ## Configuration (`MoleculeEnumeration.__init__`) -/

/-- The per-instance configuration stored by `MoleculeEnumeration.__init__`. -/
structure Config where
  seq_length : Nat
  encoder_augment : Bool
  encoder_mask : Bool
  decoder_augment : Bool
  decoder_mask : Bool
  canonicalize_input : Bool
  pad_size_divisible_by_8 : Bool
  deriving Repr

/-! ## `_pad_seqs` (lines 127–134) -/

/-- The pad length `_pad_seqs` computes from the list of sequence lengths:
`pad_length = max(len(seq) for seq in seqs)`, then
`pad_length = int(math.ceil(pad_length/8) * 8)` when the alignment flag is
set.  `math.ceil(n/8) * 8` is `((n + 7) / 8) * 8` in natural-number
arithmetic.  Python's `max` raises on an empty list; the embedding totalises
it as a fold with default `0`, so theorems about `_pad_seqs` carry a
non-emptiness hypothesis. -/
def padLengthOfLens (pad8 : Bool) (lens : List Nat) : Nat :=
  let pad_length := lens.foldl Nat.max 0
  if pad8 then ((pad_length + 7) / 8) * 8 else pad_length

/-- The pad length chosen by `_pad_seqs` for a list of sequences. -/
def padLengthOf (pad8 : Bool) (seqs : List (List α)) : Nat :=
  padLengthOfLens pad8 (seqs.map List.length)

/-- `MoleculeEnumeration._pad_seqs`: right-pad every sequence with
`pad_token` to the common pad length and return, per sequence, a validity
mask that is `1` on original positions and `0` on padding
(`masks = [([1] * len(seq)) + ([0] * (pad_length - len(seq))) ...]`). -/
def padSeqs (pad8 : Bool) (seqs : List (List α)) (pad_token : α) :
    List (List α) × List (List Nat) :=
  let pad_length := padLengthOf pad8 seqs
  (seqs.map fun seq => seq ++ List.replicate (pad_length - seq.length) pad_token,
   seqs.map fun seq =>
     List.replicate seq.length 1 ++ List.replicate (pad_length - seq.length) 0)

/-- Strip padding back off a padded row: keep exactly the positions whose
validity-mask entry is non-zero. -/
def stripPad (row : List α) (mask : List Nat) : List α :=
  (row.zip mask).filterMap fun p => if p.2 = 0 then none else some p.1

/-- The validity masks produced by `_pad_seqs`, expressed as a function of
the input sequence lengths alone. -/
def padMasksOfLengths (pad8 : Bool) (lens : List Nat) : List (List Nat) :=
  let pad_length := padLengthOfLens pad8 lens
  lens.map fun n => List.replicate n 1 ++ List.replicate (pad_length - n) 0

/-! ## `_check_seq_len` (lines 77–94) -/

/-- `MoleculeEnumeration._check_seq_len`: if the longest token sequence in
the batch exceeds `seq_length`, truncate every token sequence and every mask
sequence to its first `seq_length` entries; otherwise return both
unchanged.  (Python's `max` over the list of lengths is totalised as a fold
with default `0`, as in `padLengthOfLens`.) -/
def checkSeqLen (seq_length : Nat) (tokens : List (List α)) (mask : List (List β)) :
    List (List α) × List (List β) :=
  let seq_len := (tokens.map List.length).foldl Nat.max 0
  if seq_length < seq_len then
    (tokens.map fun ts => ts.take seq_length, mask.map fun ms => ms.take seq_length)
  else
    (tokens, mask)

/-- The warnings `_check_seq_len` emits.  Its docstring reads "Warn user and
shorten sequence if the tokens are too long", but the body (lines 88–94)
contains no `logging`/`warnings` call at all, so the list of emitted
warnings is empty on every input. -/
def checkSeqLenWarnings (seq_length : Nat) (tokens : List (List α))
    (mask : List (List β)) : List String := []

/-! ## The external tokenizer collaborator -/

/-- What `self.tokenizer.tokenize(batch, pad=False, mask=mask_data)` returns
(the fields of the dict that `_prepare_tokens` reads). -/
structure TokenizeOutput (α : Type) where
  original_tokens : List (List α)
  masked_tokens : List (List α)
  token_masks : List (List Bool)

/-- The slice of the external tokenizer (`self.tokenizer`) that the module
uses: the batch tokenizer with its mask flag, token-to-id conversion, the
special ids used by `collate_fn`, and the fields the legacy path touches. -/
structure Tokenizer (α : Type) where
  /-- `self.tokenizer.tokenize(batch, pad=False, mask=m)`. -/
  tokenizeFn : List String → Bool → TokenizeOutput α
  /-- `self.tokenizer.convert_tokens_to_ids`. -/
  convert_tokens_to_ids : List (List α) → List (List Int)
  pad_id : Int
  bos_id : Int
  eos_id : Int
  /-- `self.tokenizer._regex_match` (by `self.tokenizer.prog`). -/
  regex_match_tk : List String → List (List α)
  /-- `self.tokenizer.mask_tokens(tokens, empty_mask)` — the tokenizer's own
  masker, an external collaborator, used by the legacy `tokenize` path. -/
  mask_tokens_tk : List (List α) → Bool → List (List α) × List (List Bool)
  pad_token : α
  sep_token : α

/-! ## `_prepare_tokens` (lines 96–125) -/

/-- `MoleculeEnumeration._prepare_tokens`: tokenize the batch (with
tokenizer-level masking when `mask_data`), pick the masked or original
token sequences accordingly, build the all-`True` active mask in the
unmasked case, and pass both through `_check_seq_len`.  The returned pair
is the `{"tokens", "mask"}` dict. -/
def prepareTokens (tk : Tokenizer α) (seq_length : Nat) (batch : List String)
    (mask_data : Bool) : List (List α) × List (List Bool) :=
  let token_output := tk.tokenizeFn batch mask_data
  let tokens := if mask_data then token_output.masked_tokens
                else token_output.original_tokens
  let mask := if mask_data then token_output.token_masks
              else tokens.map fun ts => List.replicate ts.length true
  checkSeqLen seq_length tokens mask

/-! ## `collate_fn` (lines 136–189)

`collate_fn` first maps `_smiles_augmeter_func` over the batch.  That call
chain (RDKit parsing, random atom permutation) is abstracted here as a
collaborator function `augFn : smiles → augment_data → canonicalize_input →
(variant, canonical)`; `_smiles_augmeter_func` itself is modelled separately
below for the fallback analysis.  The stages of `collate_fn` are named
definitions so that theorems can speak about the intermediate values the
source binds to local variables. -/

/-- Line 142: `encoder_smiles_list`. -/
def encoderSmilesListOf (cfg : Config) (augFn : String → Bool → Bool → String × String)
    (batch : List String) : List (String × String) :=
  batch.map fun smiles => augFn smiles cfg.encoder_augment cfg.canonicalize_input

/-- Line 144: `encoder_smiles`. -/
def encoderSmilesOf (cfg : Config) (augFn : String → Bool → Bool → String × String)
    (batch : List String) : List String :=
  (encoderSmilesListOf cfg augFn batch).map Prod.fst

/-- Line 145: `canon_targets`. -/
def canonTargetsOf (cfg : Config) (augFn : String → Bool → Bool → String × String)
    (batch : List String) : List String :=
  (encoderSmilesListOf cfg augFn batch).map Prod.snd

/-- Lines 157–162: `decoder_smiles` — a re-augmentation of the encoder's
augmented strings when `decoder_augment`, the encoder strings themselves
otherwise. -/
def decoderSmilesOf (cfg : Config) (augFn : String → Bool → Bool → String × String)
    (batch : List String) : List String :=
  if cfg.decoder_augment then
    ((encoderSmilesOf cfg augFn batch).map fun smiles =>
      augFn smiles cfg.decoder_augment false).map Prod.fst
  else
    encoderSmilesOf cfg augFn batch

/-- Line 150: `enc_token_ids` before padding. -/
def encTokenIdsPre (cfg : Config) (augFn : String → Bool → Bool → String × String)
    (tk : Tokenizer α) (batch : List String) : List (List Int) :=
  tk.convert_tokens_to_ids
    (prepareTokens tk cfg.seq_length (encoderSmilesOf cfg augFn batch) cfg.encoder_mask).1

/-- Line 167: `dec_token_ids` before label construction and `bos` prepend. -/
def decTokenIdsPre (cfg : Config) (augFn : String → Bool → Bool → String × String)
    (tk : Tokenizer α) (batch : List String) : List (List Int) :=
  tk.convert_tokens_to_ids
    (prepareTokens tk cfg.seq_length (decoderSmilesOf cfg augFn batch) cfg.decoder_mask).1

/-- Line 169: `label_ids = [sample + [eos_id] for sample in dec_token_ids]`,
computed before `bos_id` is prepended to the decoder ids. -/
def labelIdsPre (cfg : Config) (augFn : String → Bool → Bool → String × String)
    (tk : Tokenizer α) (batch : List String) : List (List Int) :=
  (decTokenIdsPre cfg augFn tk batch).map fun sample => sample ++ [tk.eos_id]

/-- Line 170: `dec_token_ids = [[bos_id] + sample for sample in dec_token_ids]`. -/
def decInputIdsPre (cfg : Config) (augFn : String → Bool → Bool → String × String)
    (tk : Tokenizer α) (batch : List String) : List (List Int) :=
  (decTokenIdsPre cfg augFn tk batch).map fun sample => tk.bos_id :: sample

/-- The collate output dict (tensors modelled as lists of rows;
`target_smiles` stays a list of strings). -/
structure CollateOutput where
  text_enc : List (List Int)
  enc_mask : List (List Nat)
  text_dec : List (List Int)
  dec_mask : List (List Nat)
  labels : List (List Int)
  loss_mask : List (List Nat)
  target_smiles : List String
  deriving Repr, DecidableEq

/-- `MoleculeEnumeration.collate_fn`.  The boolean masks returned by
`_prepare_tokens` (the `.2` components) are never read, matching the source
comment "boolean masks are never used from this function".  Line 179
(`label_token_ids[~loss_mask.to(torch.bool)] = label_pad`) becomes a
row-wise element-wise overwrite at the positions whose loss-mask entry is
`0`. -/
def collateFn (cfg : Config) (augFn : String → Bool → Bool → String × String)
    (tk : Tokenizer α) (batch : List String) (label_pad : Int) : CollateOutput :=
  let enc := padSeqs cfg.pad_size_divisible_by_8 (encTokenIdsPre cfg augFn tk batch) tk.pad_id
  let dec := padSeqs cfg.pad_size_divisible_by_8 (decInputIdsPre cfg augFn tk batch) tk.pad_id
  let lab := padSeqs cfg.pad_size_divisible_by_8 (labelIdsPre cfg augFn tk batch) tk.pad_id
  { text_enc := enc.1
    enc_mask := enc.2
    text_dec := dec.1
    dec_mask := dec.2
    labels := List.zipWith
      (fun lrow mrow => List.zipWith (fun l m => if m = 0 then label_pad else l) lrow mrow)
      lab.1 lab.2
    loss_mask := lab.2
    target_smiles := canonTargetsOf cfg augFn batch }

/-! ## `_mask_span` (lines 317–340)

The `while curr_token < len(ts)` loop, with the random draws made explicit:
`sampled_mask` is the list `random.choices(...)` would have produced (one
Bernoulli outcome per input position) and `poisson d` is the value of the
`d`-th sequential `torch.poisson(...)` draw.  The loop is rendered twice:
as a fuel-indexed runner (`none` = the fuel ran out, i.e. the loop had not
terminated after `fuel` iterations) and as a step-indexed state trace. -/

/-- One fuel-indexed run of the `_mask_span` while-loop.  State:
`(curr_token, poisson-draw index, masked, token_mask)`. -/
def maskSpanLoop (mask_token : α) (ts : List α) (sampled_mask : List Bool)
    (poisson : Nat → Nat) :
    Nat → Nat → Nat → List α → List Bool → Option (List α × List Bool)
  | 0, _, _, _, _ => none
  | fuel + 1, curr_token, d, masked, token_mask =>
    if h : curr_token < ts.length then
      if sampled_mask.getD curr_token false then
        maskSpanLoop mask_token ts sampled_mask poisson fuel
          (curr_token + poisson d) (d + 1)
          (masked ++ [mask_token]) (token_mask ++ [true])
      else
        maskSpanLoop mask_token ts sampled_mask poisson fuel
          (curr_token + 1) d
          (masked ++ [ts.get ⟨curr_token, h⟩]) (token_mask ++ [false])
    else
      some (masked, token_mask)

/-- The state of the `_mask_span` loop after `n` iterations (the state is
frozen once the loop guard fails). -/
def maskSpanState (mask_token : α) (ts : List α) (sampled_mask : List Bool)
    (poisson : Nat → Nat) : Nat → Nat × Nat × List α × List Bool
  | 0 => (0, 0, [], [])
  | n + 1 =>
    let s := maskSpanState mask_token ts sampled_mask poisson n
    if h : s.1 < ts.length then
      if sampled_mask.getD s.1 false then
        (s.1 + poisson s.2.1, s.2.1 + 1, s.2.2.1 ++ [mask_token], s.2.2.2 ++ [true])
      else
        (s.1 + 1, s.2.1, s.2.2.1 ++ [ts.get ⟨s.1, h⟩], s.2.2.2 ++ [false])
    else
      s

/-- `MoleculeEnumeration._mask_span` as invoked through `self`.  The first
failing evaluation is on line 323, `weights = [self.mask_prob,
1 - self.mask_prob]`: `mask_prob` is an attribute `__init__` never sets,
so the lookup raises `AttributeError` before the line-324
`random.choices(...)` reference is ever reached.  Were `mask_prob` set,
`random.choices` would raise `NameError` (the module never imports
`random`); and only past both would the loop run on the sampled mask
(`none` modelling a run that does not terminate within `fuel` iterations —
the loop body's `self.span_lambda`/`self.mask_token` reads, also never
set, are abstracted by the `poisson`/`mask_token` parameters). -/
def maskSpanSelf (mask_token : α) (sampler : List α → List Bool)
    (poisson : Nat → Nat) (fuel : Nat) (ts : List α) :
    Except PyError (Option (List α × List Bool)) :=
  if maskProbSet then
    if randomImported then
      let sampled_mask := sampler ts
      .ok (maskSpanLoop mask_token ts sampled_mask poisson fuel 0 0 [] [])
    else
      .error (.nameError "random")
  else
    .error (.attributeError "mask_prob")

/-- `MoleculeEnumeration._mask_replace` (lines 310–315).  The first failing
evaluation is on line 312, `weights = [self.mask_prob, 1 - self.mask_prob]`:
the never-set `mask_prob` attribute raises `AttributeError` before the
line-313 `random.choices(...)` reference.  Were `mask_prob` set,
`random.choices` would raise `NameError`; only past both would each flagged
position be replaced by the outcome of `self._mask_token` (abstracted as
`mask_token_fn`, folding in that function's own draws and never-set
attribute reads). -/
def maskReplaceSelf (sampler : List α → List Bool) (mask_token_fn : α → α)
    (ts : List α) : Except PyError (List α × List Bool) :=
  if maskProbSet then
    if randomImported then
      let token_mask := sampler ts
      .ok (List.zipWith (fun t m => if m then mask_token_fn t else t) ts token_mask,
           token_mask)
    else
      .error (.nameError "random")
  else
    .error (.attributeError "mask_prob")

/-- Collect the per-row results of `self._mask_span`; `none` (a
non-terminating row) makes the whole run `none`. -/
def collectSpanResults (rs : List (Option (List α × List Bool))) :
    Option (List (List α) × List (List Bool)) :=
  match rs with
  | [] => some ([], [])
  | r :: rest => do
    let x ← r
    let xs ← collectSpanResults rest
    some (x.1 :: xs.1, x.2 :: xs.2)

/-- The `for ts in tokens` loop body of `MoleculeEnumeration.mask_tokens`
(lines 296–306): run `self._mask_span` on every row, stopping at the first
raised exception. -/
def maskTokensLoop (mask_token : α) (sampler : List α → List Bool)
    (poisson : Nat → Nat) (fuel : Nat) (tokens : List (List α)) :
    Except PyError (List (Option (List α × List Bool))) :=
  match tokens with
  | [] => .ok []
  | ts :: rest =>
    match maskSpanSelf mask_token sampler poisson fuel ts with
    | .error e => .error e
    | .ok r =>
      match maskTokensLoop mask_token sampler poisson fuel rest with
      | .error e => .error e
      | .ok rs => .ok (r :: rs)

/-- `MoleculeEnumeration.mask_tokens` (lines 288–308): with `empty_mask`
set, return the tokens unchanged with all-`True` masks; otherwise run
`self._mask_span` over the rows (the span scheme is hardcoded, see the
commented-out `mask_scheme` dispatch). -/
def maskTokensSelf (mask_token : α) (sampler : List α → List Bool)
    (poisson : Nat → Nat) (fuel : Nat) (tokens : List (List α))
    (empty_mask : Bool) :
    Except PyError (Option (List (List α) × List (List Bool))) :=
  if empty_mask then
    .ok (some (tokens, tokens.map fun ts => List.replicate ts.length true))
  else
    match maskTokensLoop mask_token sampler poisson fuel tokens with
    | .error e => .error e
    | .ok rs => .ok (collectSpanResults rs)

/-! ## `_get_compiled_regex` (lines 250–261) -/

/-- The escaping loop of `_get_compiled_regex`: backslash-escape each of
the characters `( ) [ ] . |` in a token, in that order. -/
def escapeToken (token : String) : String :=
  "()[].|".toList.foldl
    (fun processed c =>
      processed.replace (String.mk [c]) ("\\" ++ String.mk [c]))
    token

/-- The `regex_string` value `_get_compiled_regex` builds before calling
`re.compile`. -/
def regexString (regex : String) (extra_tokens : List String) : String :=
  let s := extra_tokens.foldl (fun acc token => acc ++ escapeToken token ++ "|") "("
  s ++ regex ++ "|" ++ ".)"

/-- `MoleculeEnumeration._get_compiled_regex`: builds `regex_string` and
then evaluates `re.compile(regex_string)`; the module never imports `re`,
so the final call raises `NameError`.  The compiled pattern object is
modelled by the pattern string it would compile. -/
def getCompiledRegex (regex : String) (extra_tokens : List String) :
    Except PyError String :=
  if reImported then .ok (regexString regex extra_tokens)
  else .error (.nameError "re")

/-! ## Legacy `tokenize` path (lines 191–240) and `_concat_sentences` -/

/-- Python truthiness of the optional `sents2` argument: `if sents2:` is
true exactly for a present, non-empty list. -/
def pyTruthyOptList (o : Option (List α)) : Bool :=
  match o with
  | some l => !l.isEmpty
  | none => false

/-- `MoleculeEnumeration._concat_sentences` (lines 263–270): its first
statement references `warnings`, which the module never imports, so the
call raises `NameError`; were `warnings` bound, `simplefilter('error',
DeprecationWarning)` followed by `warnings.warn(..., DeprecationWarning)`
raises the escalated warning.  Either way the concatenation code on lines
268–270 is unreachable. -/
def concatSentences (tokens1 tokens2 : List (List α)) (sep : α) :
    Except PyError (List (List α) × List (List Nat)) :=
  if warningsImported then .error .deprecationEscalated
  else .error (.nameError "warnings")

/-- The output dict of the legacy `tokenize` entry point; `Option` fields
model keys that are only present for some flag combinations. -/
structure LegacyTokenizeOutput (α : Type) where
  original_tokens : List (List α)
  masked_tokens : Option (List (List α))
  token_masks : Option (List (List Bool))
  original_pad_masks : Option (List (List Nat))
  masked_pad_masks : Option (List (List Nat))
  sentence_masks : Option (List (List Nat))

/-- `MoleculeEnumeration.tokenize` (lines 191–240).  The two disabled-feature
blocks come first: `if sents2:` and `if pad is True:` both immediately
reference `warnings`, a name the module never imports, so each raises
`NameError` (with `warnings` imported, the `sents2` block would raise the
escalated `DeprecationWarning`, while the `pad` block's `'always'` filter
would merely print).  `div8` is the instance's `pad_size_divisible_by_8`
used by `self._pad_seqs`; `mask_token`, `sampler`, `poisson`, `fuel`
parametrise the `self.mask_tokens` call on the paired-sentence path. -/
def tokenizeLegacy (tk : Tokenizer α) (div8 : Bool) (mask_token : α)
    (sampler : List α → List Bool) (poisson : Nat → Nat) (fuel : Nat)
    (sents1 : List String) (sents2 : Option (List String)) (mask : Bool)
    (pad : Bool) : Except PyError (LegacyTokenizeOutput α) :=
  if pyTruthyOptList sents2 then
    if warningsImported then .error .deprecationEscalated
    else .error (.nameError "warnings")
  else if pad && !warningsImported then
    .error (.nameError "warnings")
  else do
    match sents2 with
    | some l2 =>
      if sents1.length ≠ l2.length then
        throw (.valueError "Sentence 1 batch and sentence 2 batch must have the same number of elements")
      else pure ()
    | none => pure ()
    let tokens := tk.regex_match_tk sents1
    let mt := tk.mask_tokens_tk tokens (!mask)
    let m_tokens := mt.1
    let token_masks := mt.2
    match sents2 with
    | some l2 => do
      -- only reachable for `sents2 = some []`; `_concat_sentences` then raises
      let sents2_tokens := tk.regex_match_tk l2
      let _s2 ← maskTokensSelf mask_token sampler poisson fuel sents2_tokens (!mask)
      let _c ← concatSentences tokens sents2_tokens tk.sep_token
      throw (.nameError "warnings")
    | none =>
      if pad then
        let tp := padSeqs div8 tokens tk.pad_token
        let mp := padSeqs div8 m_tokens tk.pad_token
        let kp := padSeqs div8 token_masks false
        pure { original_tokens := tp.1
               masked_tokens := if mask then some mp.1 else none
               token_masks := if mask then some kp.1 else none
               original_pad_masks := some tp.2
               masked_pad_masks := some mp.2
               sentence_masks := none }
      else
        pure { original_tokens := tokens
               masked_tokens := if mask then some m_tokens else none
               token_masks := if mask then some token_masks else none
               original_pad_masks := none
               masked_pad_masks := none
               sentence_masks := none }

/-! ## `detokenize` (lines 272–286) -/

/-- The body of the `for tokens in tokens_list` loop in `detokenize`:
`tokens[0]` is read unconditionally, so an empty row raises `IndexError`;
otherwise drop a leading begin token, truncate at the first end token
(dropping it and everything after), and return the rest. -/
def detokenizeRow (begin_token end_token : String) (tokens : List String) :
    Except PyError (List String) :=
  match tokens with
  | [] => .error .indexError
  | t0 :: rest =>
    let tokens1 := if t0 = begin_token then rest else t0 :: rest
    let tokens2 :=
      if end_token ∈ tokens1 then tokens1.take (tokens1.indexOf end_token)
      else tokens1
    .ok tokens2

/-- The `detokenize` loop over the rows, stopping at the first raised
exception. -/
def detokenizeLoop (begin_token end_token : String)
    (tokens_list : List (List String)) : Except PyError (List (List String)) :=
  match tokens_list with
  | [] => .ok []
  | tokens :: rest =>
    match detokenizeRow begin_token end_token tokens with
    | .error e => .error e
    | .ok r =>
      match detokenizeLoop begin_token end_token rest with
      | .error e => .error e
      | .ok rs => .ok (r :: rs)

/-- `MoleculeEnumeration.detokenize`: process every row and join each
resulting token list into one string. -/
def detokenize (begin_token end_token : String)
    (tokens_list : List (List String)) : Except PyError (List String) :=
  match detokenizeLoop begin_token end_token tokens_list with
  | .error e => .error e
  | .ok new_tokens_list => .ok (new_tokens_list.map fun tokens => String.join tokens)

/-! ## `_smiles_augmeter_func` (lines 45–75) -/

/-- The slice of the RDKit backend (`Chem`) that `_smiles_augmeter_func`
uses.  `molToSmilesNonCanonical` may fail (the rare `RuntimeError` the
source guards against for the permuted mol); the canonical serializer is
treated as total, as the source never guards it. -/
structure ChemBackend (Mol : Type) where
  molFromSmiles : String → Option Mol
  molToSmilesCanonical : Mol → String
  molToSmilesNonCanonical : Mol → Except Unit String
  numAtoms : Mol → Nat
  renumberAtoms : Mol → List Nat → Mol

/-- The log message `_smiles_augmeter_func` records when it falls back to
canonicalization (line 68). -/
def augFallbackMsg (smiles : String) : String :=
  "Could not generate smiles for " ++ smiles ++ " after augmenting. Forcing canonicalization"

/-- `MoleculeEnumeration._smiles_augmeter_func`, over an abstract chemistry
backend; `perm n` is the shuffled atom order `np.random.shuffle` produces
for an `n`-atom mol.  Returns the `(aug_smiles, canon_smiles)` pair plus
the list of `logging.info` messages recorded during the call.  A parse
returning `None` makes every later use of `mol` raise (modelled as
`noneTypeError`); a serialization failure outside the guarded branch
propagates as `runtimeError`; the two trailing `assert len(...) > 0`
statements raise `assertionError` when violated. -/
def smilesAugmeterFunc {Mol : Type} (cb : ChemBackend Mol) (perm : Nat → List Nat)
    (smiles : String) (augment_data : Bool) (canonicalize_input : Bool) :
    Except PyError ((String × String) × List String) :=
  match cb.molFromSmiles smiles with
  | none => .error .noneTypeError
  | some mol =>
    let canon_smiles := if canonicalize_input then cb.molToSmilesCanonical mol else smiles
    let augRes : Except PyError (String × List String) :=
      if augment_data then
        let atom_order := perm (cb.numAtoms mol)
        let aug_mol := cb.renumberAtoms mol atom_order
        match cb.molToSmilesNonCanonical aug_mol with
        | .ok s => .ok (s, [])
        | .error _ =>
          .ok (if canonicalize_input then canon_smiles else cb.molToSmilesCanonical mol,
               [augFallbackMsg smiles])
      else
        match cb.molToSmilesNonCanonical mol with
        | .ok s => .ok (s, [])
        | .error _ => .error .runtimeError
    match augRes with
    | .error e => .error e
    | .ok (aug_smiles, logs) =>
      if 0 < aug_smiles.length then
        if 0 < canon_smiles.length then .ok ((aug_smiles, canon_smiles), logs)
        else .error .assertionError
      else .error .assertionError

/-! ## Concrete instances used by the witnesses -/

/-- A concrete augmenter collaborator: the identity on both components. -/
def exAug : String → Bool → Bool → String × String := fun s _ _ => (s, s)

/-- A concrete tokenizer: one token per string, ids are token lengths,
tokenizer-level masking flags nothing. -/
def exTokenizer : Tokenizer String where
  tokenizeFn := fun b m =>
    { original_tokens := b.map fun s => [s]
      masked_tokens := b.map fun s => ["<mask>"]
      token_masks := b.map fun s => [false] }
  convert_tokens_to_ids := fun rows => rows.map fun row => row.map fun t => (t.length : Int)
  pad_id := 0
  bos_id := 2
  eos_id := 3
  regex_match_tk := fun ss => ss.map fun s => [s]
  mask_tokens_tk := fun ts e => (ts, ts.map fun r => List.replicate r.length true)
  pad_token := "<pad>"
  sep_token := "<sep>"

/-- `exTokenizer` with different `token_masks` output (all-`true` instead of
all-`false`); everything else identical. -/
def exTokenizer2 : Tokenizer String where
  tokenizeFn := fun b m =>
    { original_tokens := b.map fun s => [s]
      masked_tokens := b.map fun s => ["<mask>"]
      token_masks := b.map fun s => [true] }
  convert_tokens_to_ids := fun rows => rows.map fun row => row.map fun t => (t.length : Int)
  pad_id := 0
  bos_id := 2
  eos_id := 3
  regex_match_tk := fun ss => ss.map fun s => [s]
  mask_tokens_tk := fun ts e => (ts, ts.map fun r => List.replicate r.length true)
  pad_token := "<pad>"
  sep_token := "<sep>"

/-- A concrete configuration. -/
def exConfig : Config where
  seq_length := 10
  encoder_augment := false
  encoder_mask := true
  decoder_augment := false
  decoder_mask := false
  canonicalize_input := true
  pad_size_divisible_by_8 := true

/-- A concrete chemistry backend on a one-point mol type whose
non-canonical serializer always fails. -/
def exChem : ChemBackend Unit where
  molFromSmiles := fun _ => some ()
  molToSmilesCanonical := fun _ => "CCO"
  molToSmilesNonCanonical := fun _ => .error ()
  numAtoms := fun _ => 3
  renumberAtoms := fun m _ => m

/-! ## Helper lemmas -/

theorem foldl_max_init_le (l : List Nat) (a : Nat) : a ≤ l.foldl Nat.max a := by
  induction l generalizing a with
  | nil => exact Nat.le_refl a
  | cons b l ih => exact Nat.le_trans (Nat.le_max_left a b) (ih (Nat.max a b))

theorem le_foldl_max (l : List Nat) : ∀ (a x : Nat), x ∈ l → x ≤ l.foldl Nat.max a := by
  induction l with
  | nil => intro a x hx; cases hx
  | cons b l ih =>
    intro a x hx
    rcases List.mem_cons.mp hx with h | h
    · subst h
      exact Nat.le_trans (Nat.le_max_right a x) (foldl_max_init_le l (Nat.max a x))
    · exact ih _ _ h

theorem length_le_padLengthOf (pad8 : Bool) (seqs : List (List α)) (s : List α)
    (hs : s ∈ seqs) : s.length ≤ padLengthOf pad8 seqs := by
  have h1 : s.length ≤ (seqs.map List.length).foldl Nat.max 0 :=
    le_foldl_max _ 0 _ (List.mem_map_of_mem List.length hs)
  unfold padLengthOf padLengthOfLens
  cases pad8 with
  | false => simpa using h1
  | true =>
    simp only [if_pos rfl]
    have h2 : (seqs.map List.length).foldl Nat.max 0 ≤
        (((seqs.map List.length).foldl Nat.max 0 + 7) / 8) * 8 := by omega
    exact Nat.le_trans h1 h2

theorem stripPad_replicate_zero (k : Nat) (p : α) :
    stripPad (List.replicate k p) (List.replicate k 0) = [] := by
  induction k with
  | zero => rfl
  | succ n ih =>
    simp only [stripPad, List.replicate_succ, List.zip_cons_cons,
      List.filterMap_cons] at ih ⊢
    simp [ih]

theorem stripPad_append_replicate (s : List α) (k : Nat) (p : α) :
    stripPad (s ++ List.replicate k p)
      (List.replicate s.length 1 ++ List.replicate k 0) = s := by
  induction s with
  | nil => simpa using stripPad_replicate_zero k p
  | cons a s ih =>
    simp only [List.length_cons, List.replicate_succ, List.cons_append, stripPad,
      List.zip_cons_cons, List.filterMap_cons] at ih ⊢
    simpa using ih

theorem zipWith_map_same (f : β → γ → δ) (g : α → β) (h : α → γ) (l : List α) :
    List.zipWith f (l.map g) (l.map h) = l.map fun x => f (g x) (h x) := by
  induction l with
  | nil => rfl
  | cons a l ih => simp [ih]

theorem padSeqs_strip_all (pad8 : Bool) (seqs : List (List α)) (p : α) :
    List.zipWith stripPad (padSeqs pad8 seqs p).1 (padSeqs pad8 seqs p).2 = seqs := by
  simp only [padSeqs]
  rw [zipWith_map_same]
  have h : (fun (s : List α) =>
      stripPad (s ++ List.replicate (padLengthOf pad8 seqs - s.length) p)
        (List.replicate s.length 1 ++
          List.replicate (padLengthOf pad8 seqs - s.length) 0)) = id :=
    funext fun s => stripPad_append_replicate s _ p
  rw [h, List.map_id]

theorem stripPad_overwrite (row : List α) (mask : List Nat) (lp : α) :
    stripPad (List.zipWith (fun l m => if m = 0 then lp else l) row mask) mask
      = stripPad row mask := by
  induction row generalizing mask with
  | nil => cases mask <;> rfl
  | cons a row ih =>
    cases mask with
    | nil => rfl
    | cons m mask =>
      have htail := ih mask
      simp only [stripPad] at htail
      by_cases hm : m = 0 <;>
        simp [stripPad, List.zipWith_cons_cons, List.zip_cons_cons,
          List.filterMap_cons, hm, htail]

theorem zipWith_strip_overwrite_rows (P : List (List α)) (M : List (List Nat)) (lp : α) :
    List.zipWith stripPad
      (List.zipWith
        (fun lrow mrow => List.zipWith (fun l m => if m = 0 then lp else l) lrow mrow)
        P M) M
      = List.zipWith stripPad P M := by
  induction P generalizing M with
  | nil => cases M <;> rfl
  | cons p P ih =>
    cases M with
    | nil => rfl
    | cons m M => simp [List.zipWith_cons_cons, stripPad_overwrite, ih]

theorem padSeqs_snd_eq (pad8 : Bool) (seqs : List (List α)) (p : α) :
    (padSeqs pad8 seqs p).2 = padMasksOfLengths pad8 (seqs.map List.length) := by
  simp [padSeqs, padMasksOfLengths, padLengthOf, List.map_map, Function.comp]

/-! ## Claim theorems -/

/-- **C3** (code_bug evidence): with `seq_length = 3`, a batch holding a
5-token sequence is truncated to its first 3 tokens with its mask truncated
in lock-step, the shorter sequence is left alone (not padded up), and the
warning promised by the claim (and by `_check_seq_len`'s own docstring
"Warn user and shorten sequence") is never emitted — the function body
contains no warning call, so its warning output is empty. -/
theorem check_seq_len_truncates_without_warning :
    checkSeqLen 3 [["C", "C", "O", "N", "S"], ["C"]]
        [[true, true, true, true, true], [true]]
      = ([["C", "C", "O"], ["C"]], [[true, true, true], [true]]) ∧
    checkSeqLen 3 [["C", "C"], ["C"]] [[true, true], [true]]
      = ([["C", "C"], ["C"]], [[true, true], [true]]) ∧
    checkSeqLenWarnings 3 [["C", "C", "O", "N", "S"], ["C"]]
        [[true, true, true, true, true], [true]] = ([] : List String) :=
  ⟨rfl, rfl, rfl⟩

/-- **C5**: for a non-empty input set, with the alignment flag set the pad
length `_pad_seqs` chooses is a multiple of 8 and the least multiple of 8
at or above the maximum input length; with the flag unset it equals the
maximum input length; and every padded row has exactly that length. -/
theorem pad_seqs_alignment_length {α : Type} (pad8 : Bool) (seqs : List (List α))
    (p : α) (hne : seqs ≠ []) :
    (pad8 = true →
      8 ∣ padLengthOf pad8 seqs ∧
      (seqs.map List.length).foldl Nat.max 0 ≤ padLengthOf pad8 seqs ∧
      ∀ m, 8 ∣ m → (seqs.map List.length).foldl Nat.max 0 ≤ m →
        padLengthOf pad8 seqs ≤ m) ∧
    (pad8 = false →
      padLengthOf pad8 seqs = (seqs.map List.length).foldl Nat.max 0) ∧
    ∀ row ∈ (padSeqs pad8 seqs p).1, row.length = padLengthOf pad8 seqs := by
  refine ⟨?_, ?_, ?_⟩
  · intro h8
    subst h8
    have hM : padLengthOf true seqs
        = (((seqs.map List.length).foldl Nat.max 0 + 7) / 8) * 8 := by
      simp [padLengthOf, padLengthOfLens]
    refine ⟨by rw [hM]; omega, by rw [hM]; omega, fun m hm hle => by rw [hM]; omega⟩
  · intro h8
    subst h8
    simp [padLengthOf, padLengthOfLens]
  · intro row hrow
    simp only [padSeqs, List.mem_map] at hrow
    rcases hrow with ⟨s, hs, rfl⟩
    have hle := length_le_padLengthOf pad8 seqs s hs
    simp only [List.length_append, List.length_replicate]
    omega

/-- Witness for `pad_seqs_alignment_length` at a concrete batch. -/
theorem pad_seqs_alignment_length_witness :
    ([[(1 : Int), 2, 3], [4]] ≠ ([] : List (List Int))) ∧
    8 ∣ padLengthOf true [[(1 : Int), 2, 3], [4]] ∧
    ∀ row ∈ (padSeqs true [[(1 : Int), 2, 3], [4]] 0).1,
      row.length = padLengthOf true [[(1 : Int), 2, 3], [4]] := by
  have h := pad_seqs_alignment_length true [[(1 : Int), 2, 3], [4]] 0 (by decide)
  exact ⟨by decide, (h.1 rfl).1, h.2.2⟩

/-- **C6**: padding round-trip — for every non-empty input set and every pad
value, stripping each padded row at the positions where its validity mask
is `0` reconstructs the original rows exactly. -/
theorem pad_seqs_roundtrip {α : Type} (pad8 : Bool) (seqs : List (List α)) (p : α)
    (hne : seqs ≠ []) :
    List.zipWith stripPad (padSeqs pad8 seqs p).1 (padSeqs pad8 seqs p).2 = seqs :=
  padSeqs_strip_all pad8 seqs p

/-- Witness for `pad_seqs_roundtrip` at a concrete batch. -/
theorem pad_seqs_roundtrip_witness :
    ([["a"], ["b", "c"]] ≠ ([] : List (List String))) ∧
    List.zipWith stripPad (padSeqs true [["a"], ["b", "c"]] "<pad>").1
      (padSeqs true [["a"], ["b", "c"]] "<pad>").2 = [["a"], ["b", "c"]] :=
  ⟨by decide, pad_seqs_roundtrip true [["a"], ["b", "c"]] "<pad>" (by decide)⟩

/-- **C2**: when every Poisson draw is `0` and some position within the
input is flagged for masking, the `_mask_span` scan cursor can never move
past that position — the loop fails to terminate for any amount of fuel —
and when position `0` itself is flagged the loop emits an unbounded run of
placeholder tokens (`n` placeholders after `n` iterations) while the
cursor stays at `0`, consuming no input. -/
theorem mask_span_zero_draw_stalls {α : Type} (mask_token : α) (ts : List α)
    (sampled_mask : List Bool) (poisson : Nat → Nat)
    (hpoisson : ∀ k, poisson k = 0) (j : Nat) (hjlen : j < ts.length)
    (hjflag : sampled_mask.getD j false = true) :
    (∀ fuel, maskSpanLoop mask_token ts sampled_mask poisson fuel 0 0 [] [] = none) ∧
    (sampled_mask.getD 0 false = true →
      ∀ n, (maskSpanState mask_token ts sampled_mask poisson n).1 = 0 ∧
        (maskSpanState mask_token ts sampled_mask poisson n).2.2.1
          = List.replicate n mask_token) := by
  have key : ∀ fuel curr d masked tmask, curr ≤ j →
      maskSpanLoop mask_token ts sampled_mask poisson fuel curr d masked tmask
        = none := by
    intro fuel
    induction fuel with
    | zero => intro curr d masked tmask hc; rfl
    | succ n ih =>
      intro curr d masked tmask hc
      have hlt : curr < ts.length := Nat.lt_of_le_of_lt hc hjlen
      simp only [maskSpanLoop, dif_pos hlt]
      cases hflag : sampled_mask.getD curr false with
      | true =>
        simp only [if_pos rfl]
        exact ih _ _ _ _ (by rw [hpoisson d]; omega)
      | false =>
        have hne : curr ≠ j := by
          intro hcj
          rw [hcj, hjflag] at hflag
          cases hflag
        simp only [Bool.false_eq_true, if_false]
        exact ih _ _ _ _ (by omega)
  have key2 : sampled_mask.getD 0 false = true → ∀ n,
      maskSpanState mask_token ts sampled_mask poisson n
        = (0, n, List.replicate n mask_token, List.replicate n true) := by
    intro h0 n
    have h0len : 0 < ts.length := Nat.lt_of_le_of_lt (Nat.zero_le j) hjlen
    induction n with
    | zero => simp [maskSpanState]
    | succ n ih =>
      simp only [maskSpanState, ih, dif_pos h0len, h0, if_pos rfl, hpoisson n]
      simp [List.replicate_succ']
  refine ⟨fun fuel => key fuel 0 0 [] [] (Nat.zero_le j), fun h0 n => ?_⟩
  rw [key2 h0 n]
  exact ⟨rfl, rfl⟩

/-- Witness for `mask_span_zero_draw_stalls` on a concrete two-token input
with position 0 flagged and all-zero draws: 5 iterations of fuel are not
enough (nor is any amount), and after 3 iterations three placeholders have
been emitted. -/
theorem mask_span_zero_draw_stalls_witness :
    ((0 : Nat) < (["C", "C"] : List String).length) ∧
    maskSpanLoop "<mask>" ["C", "C"] [true] (fun _ => 0) 5 0 0 [] [] = none ∧
    (maskSpanState "<mask>" ["C", "C"] [true] (fun _ => 0) 3).2.2.1
      = List.replicate 3 "<mask>" := by
  have h := mask_span_zero_draw_stalls "<mask>" ["C", "C"] [true] (fun _ => 0)
    (fun k => rfl) 0 (by decide) (by decide)
  exact ⟨by decide, h.1 5, (h.2 (by decide) 3).2⟩

/-- **C1**: in the `collate_fn` output, stripping each label row at the
positions where the loss mask is `0` yields exactly the decoder token ids
with one `eos_id` appended, and stripping each decoder-input row at the
positions where the decoder mask is `0` yields exactly one `bos_id`
followed by the decoder token ids; since the labels are built from the
decoder ids before `bos_id` is prepended, `bos_id` appears in no unpadded
label row provided it is distinct from `eos_id` and absent from the
decoder ids themselves. -/
theorem collate_label_construction {α : Type} (cfg : Config)
    (augFn : String → Bool → Bool → String × String) (tk : Tokenizer α)
    (batch : List String) (label_pad : Int) (hb : batch ≠ []) :
    List.zipWith stripPad (collateFn cfg augFn tk batch label_pad).labels
        (collateFn cfg augFn tk batch label_pad).loss_mask
      = (decTokenIdsPre cfg augFn tk batch).map (fun sample => sample ++ [tk.eos_id]) ∧
    List.zipWith stripPad (collateFn cfg augFn tk batch label_pad).text_dec
        (collateFn cfg augFn tk batch label_pad).dec_mask
      = (decTokenIdsPre cfg augFn tk batch).map (fun sample => tk.bos_id :: sample) ∧
    (tk.bos_id ≠ tk.eos_id →
      (∀ row ∈ decTokenIdsPre cfg augFn tk batch, tk.bos_id ∉ row) →
      ∀ lrow ∈ List.zipWith stripPad (collateFn cfg augFn tk batch label_pad).labels
          (collateFn cfg augFn tk batch label_pad).loss_mask,
        tk.bos_id ∉ lrow) := by
  have h1 : List.zipWith stripPad (collateFn cfg augFn tk batch label_pad).labels
      (collateFn cfg augFn tk batch label_pad).loss_mask
      = (decTokenIdsPre cfg augFn tk batch).map (fun sample => sample ++ [tk.eos_id]) := by
    simp only [collateFn]
    rw [zipWith_strip_overwrite_rows, padSeqs_strip_all]
    rfl
  have h2 : List.zipWith stripPad (collateFn cfg augFn tk batch label_pad).text_dec
      (collateFn cfg augFn tk batch label_pad).dec_mask
      = (decTokenIdsPre cfg augFn tk batch).map (fun sample => tk.bos_id :: sample) := by
    simp only [collateFn]
    rw [padSeqs_strip_all]
    rfl
  refine ⟨h1, h2, fun hne hnotin lrow hl => ?_⟩
  rw [h1] at hl
  rcases List.mem_map.mp hl with ⟨s, hs, rfl⟩
  intro hmem
  rcases List.mem_append.mp hmem with h | h
  · exact hnotin s hs h
  · exact hne (List.mem_singleton.mp h)

/-- Witness for `collate_label_construction` at a concrete configuration and
batch. -/
theorem collate_label_construction_witness :
    (["CCCC", "O"] ≠ ([] : List String)) ∧
    List.zipWith stripPad
        (collateFn exConfig exAug exTokenizer ["CCCC", "O"] (-1)).labels
        (collateFn exConfig exAug exTokenizer ["CCCC", "O"] (-1)).loss_mask
      = (decTokenIdsPre exConfig exAug exTokenizer ["CCCC", "O"]).map
          (fun sample => sample ++ [exTokenizer.eos_id]) ∧
    ∀ lrow ∈ List.zipWith stripPad
        (collateFn exConfig exAug exTokenizer ["CCCC", "O"] (-1)).labels
        (collateFn exConfig exAug exTokenizer ["CCCC", "O"] (-1)).loss_mask,
      exTokenizer.bos_id ∉ lrow := by
  have h := collate_label_construction exConfig exAug exTokenizer
    ["CCCC", "O"] (-1) (by decide)
  exact ⟨by decide, h.1, h.2.2 (by decide) (by decide)⟩

theorem checkSeqLen_fst_congr {α β : Type} (L : Nat) (t : List (List α))
    (m m' : List (List β)) : (checkSeqLen L t m).1 = (checkSeqLen L t m').1 := by
  unfold checkSeqLen
  by_cases h : L < (t.map List.length).foldl Nat.max 0 <;> simp [h]

theorem prepareTokens_fst_congr {α : Type} (tk tk' : Tokenizer α) (L : Nat)
    (b : List String) (m : Bool)
    (horig : (tk.tokenizeFn b m).original_tokens = (tk'.tokenizeFn b m).original_tokens)
    (hmasked : (tk.tokenizeFn b m).masked_tokens = (tk'.tokenizeFn b m).masked_tokens) :
    (prepareTokens tk L b m).1 = (prepareTokens tk' L b m).1 := by
  cases m with
  | false =>
    simp only [prepareTokens, Bool.false_eq_true, if_false]
    rw [horig]
  | true =>
    simp only [prepareTokens, if_pos rfl]
    rw [hmasked]
    exact checkSeqLen_fst_congr L _ _ _

/-- **C9**: the attention masks in the `collate_fn` output are exactly the
`_pad_seqs` validity masks, a function of the token-id sequence lengths at
padding time alone (`1` on original positions, `0` on padding); and the
boolean masking-active masks produced by `_prepare_tokens` are discarded —
two tokenizers that agree on tokens (original and masked) and on id
conversion but report arbitrarily different `token_masks` give identical
collate output. -/
theorem collate_masks_depend_only_on_lengths {α : Type} (cfg : Config)
    (augFn : String → Bool → Bool → String × String) (tk tk' : Tokenizer α)
    (batch : List String) (label_pad : Int) (hb : batch ≠ [])
    (horig : ∀ b m, (tk.tokenizeFn b m).original_tokens
      = (tk'.tokenizeFn b m).original_tokens)
    (hmasked : ∀ b m, (tk.tokenizeFn b m).masked_tokens
      = (tk'.tokenizeFn b m).masked_tokens)
    (hconv : tk.convert_tokens_to_ids = tk'.convert_tokens_to_ids)
    (hpad : tk.pad_id = tk'.pad_id) (hbos : tk.bos_id = tk'.bos_id)
    (heos : tk.eos_id = tk'.eos_id) :
    (collateFn cfg augFn tk batch label_pad).enc_mask
      = padMasksOfLengths cfg.pad_size_divisible_by_8
          ((encTokenIdsPre cfg augFn tk batch).map List.length) ∧
    (collateFn cfg augFn tk batch label_pad).dec_mask
      = padMasksOfLengths cfg.pad_size_divisible_by_8
          ((decInputIdsPre cfg augFn tk batch).map List.length) ∧
    collateFn cfg augFn tk batch label_pad
      = collateFn cfg augFn tk' batch label_pad := by
  have henc : encTokenIdsPre cfg augFn tk batch = encTokenIdsPre cfg augFn tk' batch := by
    simp only [encTokenIdsPre]
    rw [hconv, prepareTokens_fst_congr tk tk' cfg.seq_length _ _ (horig _ _) (hmasked _ _)]
  have hdec : decTokenIdsPre cfg augFn tk batch = decTokenIdsPre cfg augFn tk' batch := by
    simp only [decTokenIdsPre]
    rw [hconv, prepareTokens_fst_congr tk tk' cfg.seq_length _ _ (horig _ _) (hmasked _ _)]
  have hdecIn : decInputIdsPre cfg augFn tk batch = decInputIdsPre cfg augFn tk' batch := by
    simp only [decInputIdsPre]
    rw [hdec, hbos]
  have hlab : labelIdsPre cfg augFn tk batch = labelIdsPre cfg augFn tk' batch := by
    simp only [labelIdsPre]
    rw [hdec, heos]
  refine ⟨?_, ?_, ?_⟩
  · simp only [collateFn]
    exact padSeqs_snd_eq _ _ _
  · simp only [collateFn]
    exact padSeqs_snd_eq _ _ _
  · simp only [collateFn]
    rw [henc, hdecIn, hlab, hpad]

/-- Witness for `collate_masks_depend_only_on_lengths`: two concrete
tokenizers whose `token_masks` outputs differ produce identical collate
output, whose encoder mask equals the lengths-only mask. -/
theorem collate_masks_depend_only_on_lengths_witness :
    (exTokenizer.tokenizeFn ["CC"] true).token_masks
      ≠ (exTokenizer2.tokenizeFn ["CC"] true).token_masks ∧
    collateFn exConfig exAug exTokenizer ["CC"] (-1)
      = collateFn exConfig exAug exTokenizer2 ["CC"] (-1) ∧
    (collateFn exConfig exAug exTokenizer ["CC"] (-1)).enc_mask
      = padMasksOfLengths exConfig.pad_size_divisible_by_8
          ((encTokenIdsPre exConfig exAug exTokenizer ["CC"]).map List.length) := by
  have h := collate_masks_depend_only_on_lengths exConfig exAug exTokenizer
    exTokenizer2 ["CC"] (-1) (by decide) (fun b m => rfl) (fun b m => rfl)
    rfl rfl rfl rfl
  exact ⟨by decide, h.2.2, h.1⟩

/-- **C4**: the legacy `tokenize` entry point raises immediately for a
(non-empty) second sentence batch and for `pad = True` — in both cases the
very first statement of the guarded block references the never-imported
`warnings` module, so a `NameError` is raised before anything else runs. -/
theorem tokenize_disabled_features_raise {α : Type} (tk : Tokenizer α)
    (div8 : Bool) (mask_token : α) (sampler : List α → List Bool)
    (poisson : Nat → Nat) (fuel : Nat) (sents1 : List String)
    (l : List String) (hl : l ≠ []) (mask pad : Bool) :
    tokenizeLegacy tk div8 mask_token sampler poisson fuel sents1 (some l) mask pad
      = .error (.nameError "warnings") ∧
    tokenizeLegacy tk div8 mask_token sampler poisson fuel sents1 none mask true
      = .error (.nameError "warnings") := by
  constructor
  · have hemp : l.isEmpty = false := by
      cases l with
      | nil => exact absurd rfl hl
      | cons a l => rfl
    simp [tokenizeLegacy, pyTruthyOptList, hemp, warningsImported, moduleBoundNames]
  · simp [tokenizeLegacy, pyTruthyOptList, warningsImported, moduleBoundNames]

/-- Witness for `tokenize_disabled_features_raise` at concrete arguments. -/
theorem tokenize_disabled_features_raise_witness :
    tokenizeLegacy exTokenizer true "<mask>" (fun ts => List.replicate ts.length true)
        (fun _ => 1) 10 ["CC"] (some ["O"]) false false
      = .error (.nameError "warnings") ∧
    tokenizeLegacy exTokenizer true "<mask>" (fun ts => List.replicate ts.length true)
        (fun _ => 1) 10 ["CC"] none false true
      = .error (.nameError "warnings") := by
  have h := tokenize_disabled_features_raise exTokenizer true "<mask>"
    (fun ts => List.replicate ts.length true) (fun _ => 1) 10 ["CC"] ["O"]
    (by decide) false false
  exact ⟨h.1, h.2⟩

/-- **C7**: when augmentation is on and serializing the permuted mol fails,
`_smiles_augmeter_func` recovers locally (returns `.ok`, no error escapes):
the variant is the already-computed canonical string when canonicalization
was requested, and a freshly computed canonical serialization of the
original mol when it was not, and exactly the fallback `logging.info`
message is recorded. -/
theorem augment_serialization_fallback {Mol : Type} (cb : ChemBackend Mol)
    (perm : Nat → List Nat) (smiles : String) (mol : Mol)
    (hparse : cb.molFromSmiles smiles = some mol)
    (hfail : cb.molToSmilesNonCanonical
        (cb.renumberAtoms mol (perm (cb.numAtoms mol))) = .error ())
    (hcanon_ne : 0 < (cb.molToSmilesCanonical mol).length)
    (hsmiles_ne : 0 < smiles.length) :
    smilesAugmeterFunc cb perm smiles true true
      = .ok ((cb.molToSmilesCanonical mol, cb.molToSmilesCanonical mol),
             [augFallbackMsg smiles]) ∧
    smilesAugmeterFunc cb perm smiles true false
      = .ok ((cb.molToSmilesCanonical mol, smiles), [augFallbackMsg smiles]) := by
  constructor <;>
    simp [smilesAugmeterFunc, hparse, hfail, hcanon_ne, hsmiles_ne]

/-- Witness for `augment_serialization_fallback` on a concrete backend
whose non-canonical serializer always fails. -/
theorem augment_serialization_fallback_witness :
    exChem.molToSmilesNonCanonical
        (exChem.renumberAtoms () (List.range (exChem.numAtoms ()))) = .error () ∧
    smilesAugmeterFunc exChem (fun n => List.range n) "OCC" true true
      = .ok (("CCO", "CCO"), [augFallbackMsg "OCC"]) := by
  have h := augment_serialization_fallback exChem (fun n => List.range n) "OCC" ()
    rfl rfl (by decide) (by decide)
  exact ⟨rfl, h.1⟩

/-- **C8** (amended): the module imports neither `random` nor `warnings`
nor `re`, and `__init__` never sets `self.mask_prob`; `_mask_span` and
`_mask_replace` therefore raise `AttributeError` on `mask_prob` on every
input — that lookup (lines 312/323) is evaluated before the `random`
reference is reached — and `mask_tokens` with `empty_mask=False` raises
the same `AttributeError` for every *non-empty* list of sequences (with
an empty list the loop body never runs and `([], [])` is returned — see
the counterexample).  The legacy `tokenize` with a non-empty second batch
raises `NameError` on the unimported `warnings`, and `_get_compiled_regex`
raises `NameError` on the unimported `re`.  Either way the in-class
masking strategies are unusable as written. -/
theorem maskers_raise_attribute_or_name_error {α : Type} (mask_token : α)
    (sampler : List α → List Bool) (poisson : Nat → Nat) (fuel : Nat)
    (ts : List α) (mask_token_fn : α → α) (tokens : List (List α))
    (htokens : tokens ≠ []) (tk : Tokenizer α) (div8 : Bool)
    (sents1 : List String) (l : List String) (hl : l ≠ []) (mask pad : Bool)
    (regex : String) (extra_tokens : List String) :
    randomImported = false ∧ warningsImported = false ∧ reImported = false ∧
    maskProbSet = false ∧
    maskSpanSelf mask_token sampler poisson fuel ts
      = .error (.attributeError "mask_prob") ∧
    maskReplaceSelf sampler mask_token_fn ts
      = .error (.attributeError "mask_prob") ∧
    maskTokensSelf mask_token sampler poisson fuel tokens false
      = .error (.attributeError "mask_prob") ∧
    tokenizeLegacy tk div8 mask_token sampler poisson fuel sents1 (some l) mask pad
      = .error (.nameError "warnings") ∧
    getCompiledRegex regex extra_tokens = .error (.nameError "re") := by
  refine ⟨rfl, rfl, rfl, rfl, rfl, rfl, ?_, ?_, rfl⟩
  · cases tokens with
    | nil => exact absurd rfl htokens
    | cons t rest => rfl
  · have hemp : l.isEmpty = false := by
      cases l with
      | nil => exact absurd rfl hl
      | cons a l => rfl
    simp [tokenizeLegacy, pyTruthyOptList, hemp, warningsImported, moduleBoundNames]

/-- Counterexample to **C8** as stated: `mask_tokens` with masking enabled
(`empty_mask=False`) on an *empty* list of sequences does not raise at all
— the `for` loop body never executes and the empty pair is returned — and
`_mask_span` on a non-empty input raises `AttributeError` on the never-set
`self.mask_prob`, not the `NameError` the claim asserts. -/
theorem mask_tokens_empty_batch_no_raise :
    maskTokensSelf "<mask>" (fun ts => List.replicate ts.length true)
      (fun _ => 1) 10 ([] : List (List String)) false = .ok (some ([], [])) ∧
    maskSpanSelf "<mask>" (fun ts => List.replicate ts.length true) (fun _ => 1) 10
      ["C"] = .error (.attributeError "mask_prob") :=
  ⟨rfl, rfl⟩

/-- Witness for `maskers_raise_attribute_or_name_error` at concrete
arguments. -/
theorem maskers_raise_attribute_or_name_error_witness :
    maskTokensSelf "<mask>" (fun ts => List.replicate ts.length true) (fun _ => 1) 10
      [["C", "C"]] false = .error (.attributeError "mask_prob") ∧
    maskSpanSelf "<mask>" (fun ts => List.replicate ts.length true) (fun _ => 1) 10
      ["C", "C"] = .error (.attributeError "mask_prob") ∧
    getCompiledRegex "[a-z]" ["C", "[nH]"] = .error (.nameError "re") := by
  have h := maskers_raise_attribute_or_name_error "<mask>"
    (fun ts => List.replicate ts.length true) (fun _ => 1) 10 ["C", "C"]
    (fun t => t) [["C", "C"]] (by decide) exTokenizer true ["CC"] ["O"]
    (by decide) false false "[a-z]" ["C", "[nH]"]
  exact ⟨h.2.2.2.2.2.2.1, h.2.2.2.2.1, h.2.2.2.2.2.2.2.2⟩

/-- **C10**: `detokenize` reads `tokens[0]` unconditionally, so it raises
`IndexError` whenever any input row is empty, and it returns one string per
input row whenever every row is non-empty. -/
theorem detokenize_requires_nonempty_rows (begin_token end_token : String)
    (tokens_list : List (List String)) :
    ((∃ row ∈ tokens_list, row = []) →
      detokenize begin_token end_token tokens_list = .error .indexError) ∧
    ((∀ row ∈ tokens_list, row ≠ []) →
      ∃ strs, detokenize begin_token end_token tokens_list = .ok strs ∧
        strs.length = tokens_list.length) := by
  have hrow_ok : ∀ (r : List String), r ≠ [] →
      ∃ v, detokenizeRow begin_token end_token r = .ok v := by
    intro r hr
    cases r with
    | nil => exact absurd rfl hr
    | cons t rest => exact ⟨_, rfl⟩
  have hloop : ∀ (tl : List (List String)),
      ((∃ row ∈ tl, row = []) →
        detokenizeLoop begin_token end_token tl = .error .indexError) ∧
      ((∀ row ∈ tl, row ≠ []) →
        ∃ rows, detokenizeLoop begin_token end_token tl = .ok rows ∧
          rows.length = tl.length) := by
    intro tl
    induction tl with
    | nil =>
      refine ⟨fun hex => ?_, fun _ => ⟨[], rfl, rfl⟩⟩
      rcases hex with ⟨row, hm, _⟩
      cases hm
    | cons r rest ih =>
      constructor
      · rintro ⟨row, hm, hrow⟩
        by_cases hr : r = []
        · subst hr
          simp [detokenizeLoop, detokenizeRow]
        · rcases hrow_ok r hr with ⟨v, hv⟩
          rcases List.mem_cons.mp hm with h | h
          · subst h
            exact absurd hrow hr
          · simp [detokenizeLoop, hv, (ih.1 ⟨row, h, hrow⟩)]
      · intro hall
        rcases hrow_ok r (hall r (List.mem_cons_self r rest)) with ⟨v, hv⟩
        rcases ih.2 (fun row h => hall row (List.mem_cons_of_mem r h))
          with ⟨rows, hrows, hlen⟩
        exact ⟨v :: rows, by simp [detokenizeLoop, hv, hrows], by simp [hlen]⟩
  constructor
  · intro hex
    simp [detokenize, (hloop tokens_list).1 hex]
  · intro hall
    rcases (hloop tokens_list).2 hall with ⟨rows, h1, h2⟩
    exact ⟨rows.map fun tokens => String.join tokens, by simp [detokenize, h1],
      by simp [h2]⟩

/-- Witness for `detokenize_requires_nonempty_rows`: a batch with an empty
row raises `IndexError`; a batch of non-empty rows detokenizes to one
string per row. -/
theorem detokenize_requires_nonempty_rows_witness :
    detokenize "<s>" "</s>" [["<s>", "C", "C", "O", "</s>", "<pad>"], []]
      = .error .indexError ∧
    ∃ strs, detokenize "<s>" "</s>" [["<s>", "C", "C", "O", "</s>", "<pad>"], ["N"]]
      = .ok strs ∧ strs.length = 2 := by
  constructor
  · exact (detokenize_requires_nonempty_rows "<s>" "</s>"
      [["<s>", "C", "C", "O", "</s>", "<pad>"], []]).1 ⟨[], by decide, rfl⟩
  · exact (detokenize_requires_nonempty_rows "<s>" "</s>"
      [["<s>", "C", "C", "O", "</s>", "<pad>"], ["N"]]).2 (by decide)

end MolEnum
